import Mathlib

/-!
A shallow embedding, in Lean 4, of the scraping-job orchestration and
progress-tracking core of the Econo-SEO repository, together with proofs
and refutations of the behavioural properties stated in its specification.

The embedded code comes from:
* `frontend/src/services/websocket.ts` — the reconnecting real-time event
  client (`WebSocketService`);
* the PRD's backend implementation (`initiate_scraping`, `cancel_scraping`,
  `WebsiteScraper.scrape_website`, `ProgressManager`, `ConnectionManager`),
  which is the only backend code checked in.

Every definition is translated directly from the source; comments note the
source location and any external-library semantics (socket.io rooms, Celery
task revocation) that the translation relies on.
-/

namespace EconoSEO

/-! ## Real-time event client (`frontend/src/services/websocket.ts`)

`WebSocketService` keeps a socket plus reconnection bookkeeping:
`reconnectAttempts` (compared against `maxReconnectAttempts = 5`),
`reconnectDelay` (milliseconds, initialised to 1000) and an `isConnecting`
flag.  The `rooms` field below records the job ids for which a
`join_scraping_job` message was emitted on the *current* connection:
socket.io room membership is per-connection, and the class itself keeps no
list of joined jobs, so a fresh connection starts with no joined rooms. -/

structure ClientState where
  connected : Bool
  isConnecting : Bool
  reconnectAttempts : Nat
  reconnectDelay : Nat
  rooms : List String
deriving Repr, DecidableEq

/-- `private maxReconnectAttempts = 5` (websocket.ts line 45). -/
def maxReconnectAttempts : Nat := 5

/-- Field initialisers of `WebSocketService` (websocket.ts lines 42-47). -/
def initialClient : ClientState :=
  { connected := false, isConnecting := false, reconnectAttempts := 0,
    reconnectDelay := 1000, rooms := [] }

/-- Handler registered on the socket.io `connect` event (websocket.ts
lines 73-79): clears `isConnecting`, resets `reconnectAttempts` to 0 and
`reconnectDelay` to 1000, and emits a `ws_connected` notification.  It does
not emit `join_scraping_job` for any job, so the new connection is in no
rooms. -/
def onConnect (s : ClientState) : ClientState :=
  { s with connected := true, isConnecting := false,
           reconnectAttempts := 0, reconnectDelay := 1000 }

/-- Handler registered on the `disconnect` event (websocket.ts lines 81-85).
Room membership is per-connection, so the joined-room record is cleared. -/
def onDisconnect (s : ClientState) : ClientState :=
  { s with connected := false, isConnecting := false, rooms := [] }

/-- Handler registered on the `connect_error` event (websocket.ts lines
87-99): increments `reconnectAttempts`; once the maximum is reached it only
reports an error, otherwise it doubles `reconnectDelay`, capped at 10000 ms. -/
def onConnectError (s : ClientState) : ClientState :=
  let attempts := s.reconnectAttempts + 1
  if maxReconnectAttempts ≤ attempts then
    { s with isConnecting := false, reconnectAttempts := attempts }
  else
    { s with isConnecting := false, reconnectAttempts := attempts,
             reconnectDelay := min (s.reconnectDelay * 2) 10000 }

/-- `joinScrapingJob` (websocket.ts lines 120-128): when connected, emits
`join_scraping_job` for the given job id; otherwise logs and does nothing. -/
def joinScrapingJob (s : ClientState) (jobId : String) : ClientState :=
  if s.connected then { s with rooms := s.rooms ++ [jobId] } else s

/-- `leaveScrapingJob` (websocket.ts lines 133-141). -/
def leaveScrapingJob (s : ClientState) (jobId : String) : ClientState :=
  if s.connected then { s with rooms := s.rooms.filter (fun r => r ≠ jobId) } else s

/-- A `connect_error` always increments the attempt counter. -/
theorem onConnectError_attempts (s : ClientState) :
    (onConnectError s).reconnectAttempts = s.reconnectAttempts + 1 := by
  unfold onConnectError
  by_cases h : maxReconnectAttempts ≤ s.reconnectAttempts + 1 <;> simp [h]

/-- Once the maximum number of attempts is reached, the delay is left as is. -/
theorem onConnectError_delay_maxed (s : ClientState)
    (h : maxReconnectAttempts ≤ s.reconnectAttempts + 1) :
    (onConnectError s).reconnectDelay = s.reconnectDelay := by
  unfold onConnectError
  simp [h]

/-- Below the maximum number of attempts, the delay doubles, capped at 10000. -/
theorem onConnectError_delay_doubles (s : ClientState)
    (h : ¬ maxReconnectAttempts ≤ s.reconnectAttempts + 1) :
    (onConnectError s).reconnectDelay = min (s.reconnectDelay * 2) 10000 := by
  unfold onConnectError
  simp [h]

/-- Invariant of `onConnectError` iteration: starting from a state whose
backoff bookkeeping is freshly reset, after `n` consecutive connection
errors the attempt counter equals `n` and the delay equals
`min (1000 * 2 ^ n) 10000`. -/
theorem onConnectError_iterate (n : Nat) (s : ClientState)
    (ha : s.reconnectAttempts = 0) (hd : s.reconnectDelay = 1000) :
    (onConnectError^[n] s).reconnectAttempts = n ∧
    (onConnectError^[n] s).reconnectDelay = min (1000 * 2 ^ n) 10000 := by
  induction n with
  | zero => simp [ha, hd]
  | succ n ih =>
    obtain ⟨h1, h2⟩ := ih
    rw [Function.iterate_succ_apply']
    refine ⟨by rw [onConnectError_attempts, h1], ?_⟩
    by_cases h : maxReconnectAttempts ≤ (onConnectError^[n] s).reconnectAttempts + 1
    · rw [onConnectError_delay_maxed _ h, h2]
      rw [h1] at h
      simp only [maxReconnectAttempts] at h
      have h16 : (16 : Nat) ≤ 2 ^ n := by
        calc (16 : Nat) = 2 ^ 4 := by norm_num
        _ ≤ 2 ^ n := Nat.pow_le_pow_right (by norm_num) (by omega)
      have hs : (2 : Nat) ^ (n + 1) = 2 ^ n * 2 := pow_succ 2 n
      omega
    · rw [onConnectError_delay_doubles _ h, h2]
      rw [h1] at h
      simp only [maxReconnectAttempts] at h
      have hn : n ≤ 3 := by omega
      interval_cases n <;> norm_num

/-- Claim C2: after any `n` consecutive failed reconnection attempts
(`connect_error` events) following a successful connect, the client's
reconnection delay equals `min (1000 * 2 ^ n) 10000` milliseconds: it starts
at 1 second, doubles after each failure, and never exceeds 10 seconds. -/
theorem c2_exponential_backoff (s : ClientState) (n : Nat) :
    (onConnectError^[n] (onConnect s)).reconnectDelay = min (1000 * 2 ^ n) 10000 :=
  (onConnectError_iterate n (onConnect s) rfl rfl).2

/-- Claim C1 (counterexample): a client that joined job room `job1` and then
lost the connection is, after the reconnect handler runs, in no rooms at
all — the set of joined rooms after reconnect differs from the set before
the disconnect, refuting the claim that every previously joined job is
re-joined. -/
theorem c1_counterexample :
    (joinScrapingJob (onConnect initialClient) "job1").rooms = ["job1"] ∧
    (onConnect (onDisconnect (joinScrapingJob (onConnect initialClient) "job1"))).rooms ≠
      (joinScrapingJob (onConnect initialClient) "job1").rooms := by
  decide

/-- Claim C1 (amended): the `connect` handler only resets the backoff
bookkeeping (`reconnectAttempts := 0`, `reconnectDelay := 1000`) and emits a
connected notification; it re-issues no `join_scraping_job`, so after any
disconnect/reconnect the client is joined to no job rooms, whatever was
joined before. -/
theorem c1_reconnect_does_not_rejoin (s : ClientState) :
    (onConnect (onDisconnect s)).rooms = [] ∧
    (onConnect (onDisconnect s)).reconnectAttempts = 0 ∧
    (onConnect (onDisconnect s)).reconnectDelay = 1000 :=
  ⟨rfl, rfl, rfl⟩

/-! ## Progress tracking (`app/services/websocket/progress_manager.py`)

`ProgressManager.active_jobs` maps a job id to a dict holding
`website_id`, `status`, `progress`, `pages_scraped` and, once written,
`message`, `total_pages`, `current_url`, `error`.  Keys read with
`.get(key, default)` in the source are modelled with `Option` fields. -/

structure JobState where
  website_id : String
  status : String
  progress : Nat
  pages_scraped : Nat
  message : String
  total_pages : Option Nat
  current_url : Option String
  error : Option String
deriving Repr, DecidableEq

/-- The job dict created by `ProgressManager.start_job`. -/
def startedJob (website_id : String) : JobState :=
  { website_id := website_id, status := "started", progress := 0,
    pages_scraped := 0, message := "", total_pages := none,
    current_url := none, error := none }

/-- The keyword arguments of `ProgressManager.update_progress`. -/
structure ProgressUpdate where
  progress : Nat
  message : String
  pages_scraped : Option Nat
  total_pages : Option Nat
  current_url : Option String
deriving Repr, DecidableEq

/-- Body of `ProgressManager.update_progress` for a registered job
(part_003 lines 1427-1452): `progress` and `message` are overwritten with
the delivered values, `status` is set to `"processing"`, and the optional
fields are overwritten only when the caller passed them. -/
def applyUpdate (j : JobState) (u : ProgressUpdate) : JobState :=
  { j with progress := u.progress, message := u.message, status := "processing",
           pages_scraped := u.pages_scraped.getD j.pages_scraped,
           total_pages := match u.total_pages with
             | some t => some t
             | none => j.total_pages,
           current_url := match u.current_url with
             | some c => some c
             | none => j.current_url }

structure ProgressManager where
  active_jobs : List (String × JobState)
deriving Repr, DecidableEq

/-- `ProgressManager.start_job`: registers the job (dict insertion;
an assoc list consulted with `lookup` models key overwrite). -/
def start_job (m : ProgressManager) (job_id website_id : String) : ProgressManager :=
  { active_jobs := (job_id, startedJob website_id) :: m.active_jobs }

/-- `ProgressManager.update_progress`: a no-op for unknown job ids,
otherwise rewrites the stored job via `applyUpdate`. -/
def update_progress (m : ProgressManager) (job_id : String) (u : ProgressUpdate) :
    ProgressManager :=
  if (m.active_jobs.lookup job_id).isSome then
    { active_jobs := m.active_jobs.map
        (fun p => if p.1 = job_id then (p.1, applyUpdate p.2 u) else p) }
  else m

/-- The job's stored progress after each delivered update, starting from the
stored state `j`: the trace an observer of the job's aggregate `progress`
field reads. -/
def progressTrace (j : JobState) (us : List ProgressUpdate) : List Nat :=
  (us.scanl applyUpdate j).map (fun x => x.progress)

/-- The progress values emitted by `WebsiteScraper.scrape_website`'s
`progress_callback` (part_003 lines 1014-1062): `0` on entry, `10` after
page discovery, `10 + (idx * 80) / total` before page `idx` of `total`,
and `100` on completion.  (`int((idx / total_pages) * 80)` truncates; Nat
division models the truncation.) -/
def scrapeProgressValues (total : Nat) : List Nat :=
  0 :: 10 :: (((List.range total).map (fun idx => 10 + idx * 80 / total)) ++ [100])

/-- The corresponding `update_progress` calls. -/
def scraperUpdates (total : Nat) : List ProgressUpdate :=
  (scrapeProgressValues total).map
    (fun p => { progress := p, message := "", pages_scraped := none,
                total_pages := none, current_url := none })

theorem applyUpdate_progress (j : JobState) (u : ProgressUpdate) :
    (applyUpdate j u).progress = u.progress := rfl

/-- The stored progress sequence is exactly the stored value followed by the
delivered values: `update_progress` keeps no maximum, it overwrites. -/
theorem progressTrace_eq (j : JobState) (us : List ProgressUpdate) :
    progressTrace j us = j.progress :: us.map (fun u => u.progress) := by
  induction us generalizing j with
  | nil => rfl
  | cons u us ih =>
    have h := ih (applyUpdate j u)
    simp only [progressTrace] at h ⊢
    simp only [List.scanl_cons, List.singleton_append, List.map_cons]
    rw [h, applyUpdate_progress]

/-- Each entry of the scraper's per-page progress list is at least 10 and
at most 100. -/
theorem scrape_page_progress_bounds (total idx : Nat) (h : idx < total) :
    10 ≤ 10 + idx * 80 / total ∧ 10 + idx * 80 / total ≤ 100 := by
  refine ⟨Nat.le_add_right 10 _, ?_⟩
  have htot : 0 < total := Nat.lt_of_le_of_lt (Nat.zero_le idx) h
  have h1 : idx * 80 ≤ total * 80 := Nat.mul_le_mul_right 80 (Nat.le_of_lt h)
  have h2 : idx * 80 / total ≤ total * 80 / total := Nat.div_le_div_right h1
  have h3 : total * 80 / total = 80 := by
    rw [Nat.mul_comm]
    exact Nat.mul_div_cancel 80 htot
  omega

/-- The progress sequence emitted by `scrape_website` is non-decreasing. -/
theorem scrapeProgressValues_chain (total : Nat) :
    List.Chain' (fun a b => a ≤ b) (scrapeProgressValues total) := by
  have hmem : ∀ x ∈ (List.range total).map (fun idx => 10 + idx * 80 / total),
      10 ≤ x ∧ x ≤ 100 := by
    intro x hx
    obtain ⟨idx, hidx, rfl⟩ := List.mem_map.mp hx
    exact scrape_page_progress_bounds total idx (List.mem_range.mp hidx)
  have pmid : ((List.range total).map (fun idx => 10 + idx * 80 / total)).Pairwise
      (fun a b => a ≤ b) := by
    refine List.Pairwise.map _ ?_ (List.pairwise_lt_range total)
    intro a b hab
    have h80 : a * 80 / total ≤ b * 80 / total :=
      Nat.div_le_div_right (Nat.mul_le_mul_right 80 (Nat.le_of_lt hab))
    omega
  have papp : (((List.range total).map (fun idx => 10 + idx * 80 / total)) ++ [100]).Pairwise
      (fun a b => a ≤ b) := by
    rw [List.pairwise_append]
    refine ⟨pmid, List.pairwise_singleton _ _, ?_⟩
    intro x hx y hy
    have hb := (hmem x hx).2
    simp only [List.mem_singleton] at hy
    omega
  have pall : (scrapeProgressValues total).Pairwise (fun a b => a ≤ b) := by
    unfold scrapeProgressValues
    refine List.Pairwise.cons ?_ (List.Pairwise.cons ?_ papp)
    · intro y hy
      exact Nat.zero_le y
    · intro y hy
      rcases List.mem_append.mp hy with hcase | hcase
      · exact (hmem y hcase).1
      · simp only [List.mem_singleton] at hcase
        omega
  exact pall.chain'

/-- Claim C3 (amended): `update_progress` stores whatever progress value the
event delivered — it enforces no maximum — so the observed progress is
non-decreasing exactly when the delivered values are; the values actually
delivered by `scrape_website`'s callback form a non-decreasing sequence, so
for a job registered by `start_job` and driven by the scraper the stored
progress trace is monotonically non-decreasing. -/
theorem c3_scraper_progress_monotone (total : Nat) (wid : String) :
    List.Chain' (fun a b => a ≤ b)
      (progressTrace (startedJob wid) (scraperUpdates total)) := by
  rw [progressTrace_eq]
  have hmap : (scraperUpdates total).map (fun u => u.progress) = scrapeProgressValues total := by
    unfold scraperUpdates
    rw [List.map_map]
    simp [Function.comp_def]
  rw [hmap]
  have hch := scrapeProgressValues_chain total
  show List.Chain' (fun a b => a ≤ b) ((startedJob wid).progress :: scrapeProgressValues total)
  have h0 : (startedJob wid).progress = 0 := rfl
  rw [h0]
  unfold scrapeProgressValues at hch ⊢
  exact List.Chain'.cons (Nat.le_refl 0) hch

/-- A job observed mid-run at progress 50. -/
def jobAt50 : JobState :=
  { website_id := "w1", status := "processing", progress := 50,
    pages_scraped := 5, message := "", total_pages := some 10,
    current_url := none, error := none }

def mgrAt50 : ProgressManager := { active_jobs := [("job1", jobAt50)] }

/-- A delivered progress event carrying a lower value than the stored one. -/
def lowUpdate : ProgressUpdate :=
  { progress := 10, message := "rewound", pages_scraped := none,
    total_pages := none, current_url := none }

/-- Claim C3 (counterexample): delivering a progress event with value 10 to
a job stored at progress 50 lowers the stored progress to 10 — a delivered
event can lower the observed progress value, refuting the claimed
monotonicity over arbitrary delivered events. -/
theorem c3_counterexample :
    jobAt50.progress = 50 ∧
    ((update_progress mgrAt50 "job1" lowUpdate).active_jobs.lookup "job1").map
      (fun j => j.progress) = some 10 ∧
    (10 : Nat) < 50 := by
  decide

/-! ## Event delivery (`ConnectionManager`, part_003 lines 486-518, and
`ProgressManager.broadcast_progress`, lines 1487-1509)

`ConnectionManager.active_connections` maps client ids to sockets; its
`broadcast` sends a message to *every* connected client — it has no notion
of per-job rooms.  The server's websocket endpoint reads incoming client
messages and ignores them (`# Handle incoming messages if needed`), so a
`join_scraping_job` message sent by the client triggers no server-side
action.  The `joined` field below records which clients have issued a join
for which job — the specification's "observer" relation — purely as
bookkeeping; no delivery code consults it. -/

/-- The message body built by `ProgressManager.broadcast_progress`. -/
structure ProgressMsg where
  job_id : String
  website_id : String
  status : String
  progress : Nat
  pages_scraped : Nat
  total_pages : Option Nat
  current_url : Option String
  message : String
  error : Option String
deriving Repr, DecidableEq

/-- The backend's view: registered jobs, connected clients, and which
client has issued `join_scraping_job` for which job. -/
structure SystemState where
  active_jobs : List (String × JobState)
  active_connections : List String
  joined : List (String × String)
deriving Repr, DecidableEq

/-- The payload `broadcast_progress` assembles from the stored job dict. -/
def progressMessage (job_id : String) (j : JobState) : ProgressMsg :=
  { job_id := job_id, website_id := j.website_id, status := j.status,
    progress := j.progress, pages_scraped := j.pages_scraped,
    total_pages := j.total_pages, current_url := j.current_url,
    message := j.message, error := j.error }

/-- `ConnectionManager.broadcast`: sends the message to every connected
client; the result lists each delivery as a (client, message) pair. -/
def broadcast (st : SystemState) (msg : ProgressMsg) : List (String × ProgressMsg) :=
  st.active_connections.map (fun c => (c, msg))

/-- `ProgressManager.broadcast_progress`: a no-op for unregistered jobs,
otherwise builds the progress payload and hands it to
`ConnectionManager.broadcast`. -/
def broadcast_progress (st : SystemState) (job_id : String) :
    List (String × ProgressMsg) :=
  match st.active_jobs.lookup job_id with
  | none => []
  | some j => broadcast st (progressMessage job_id j)

/-- A client's `join_scraping_job` message arriving at the server: the
websocket endpoint receives it and does nothing, so no message is sent back
to anyone; only the bookkeeping `joined` relation records the request. -/
def join_job (st : SystemState) (client job_id : String) :
    SystemState × List (String × ProgressMsg) :=
  ({ st with joined := (job_id, client) :: st.joined }, [])

/-- A system with one job mid-run at `pages_scraped = 5`, two connected
clients, of which only `A` has joined the job's updates. -/
def stMid : SystemState :=
  { active_jobs := [("job1", jobAt50)],
    active_connections := ["A", "B"],
    joined := [("job1", "A")] }

/-- Claim C4 (counterexample): client `B` joins `job1` mid-run while the job
is at `pages_scraped = 5`; the join delivers no message at all — in
particular no synthesized snapshot reporting `pages_scraped = 5` — so the
first event `B` can ever see is a later live broadcast, refuting the claim
that a snapshot precedes live events. -/
theorem c4_counterexample :
    jobAt50.pages_scraped = 5 ∧ (join_job stMid "B" "job1").2 = [] := by
  decide

/-- Claim C4 (amended): joining a running job delivers no synthesized
snapshot; the joining client first receives the next live broadcast, and
that broadcast carries the job's current `pages_scraped` (never a reset
to 0), because `broadcast_progress` reads the stored job dict. -/
theorem c4_first_event_is_live_broadcast (st : SystemState) (client job_id : String)
    (j : JobState) (hj : st.active_jobs.lookup job_id = some j)
    (hc : client ∈ st.active_connections) :
    (join_job st client job_id).2 = [] ∧
    (client, progressMessage job_id j) ∈
      broadcast_progress (join_job st client job_id).1 job_id ∧
    (progressMessage job_id j).pages_scraped = j.pages_scraped := by
  refine ⟨rfl, ?_, rfl⟩
  have hst : (join_job st client job_id).1.active_jobs = st.active_jobs := rfl
  simp only [broadcast_progress, hst, hj, broadcast]
  exact List.mem_map.mpr ⟨client, hc, rfl⟩

/-- Claim C4 (witness for the amended theorem): instantiated on `stMid`
with client `B` joining `job1`. -/
theorem c4_first_event_is_live_broadcast_witness :
    (join_job stMid "B" "job1").2 = [] ∧
    ("B", progressMessage "job1" jobAt50) ∈
      broadcast_progress (join_job stMid "B" "job1").1 "job1" ∧
    (progressMessage "job1" jobAt50).pages_scraped = jobAt50.pages_scraped :=
  c4_first_event_is_live_broadcast stMid "B" "job1" jobAt50 (by decide) (by decide)

/-- Claim C7 (counterexample): a progress event for `job1` is delivered to
client `B`, which never joined `job1` — `broadcast` sends to every
connected client, so events are not confined to the job's observers. -/
theorem c7_counterexample :
    ("B", progressMessage "job1" jobAt50) ∈ broadcast_progress stMid "job1" ∧
    ("job1", "B") ∉ stMid.joined := by
  decide

/-- Claim C7 (amended): for every registered job, `broadcast_progress`
delivers the event to every currently connected client, whatever it has
joined: each observer of the job receives it (observers are connected
clients), but so does every other connected client. -/
theorem c7_broadcast_to_all_connected (st : SystemState) (job_id : String)
    (j : JobState) (hj : st.active_jobs.lookup job_id = some j) :
    (broadcast_progress st job_id).map (fun d => d.1) = st.active_connections := by
  simp [broadcast_progress, hj, broadcast, List.map_map, Function.comp_def]

/-- Claim C7 (witness for the amended theorem): instantiated on `stMid` and
`job1`. -/
theorem c7_broadcast_to_all_connected_witness :
    (broadcast_progress stMid "job1").map (fun d => d.1) = stMid.active_connections :=
  c7_broadcast_to_all_connected stMid "job1" jobAt50 (by decide)

/-! ## Job submission (`initiate_scraping`, part_003 lines 1278-1332)

The endpoint parses the URL (`urlparse(url).netloc`, modelled by a
structured `Url` whose `host` plays the role of the netloc), rejects URLs
without a domain with HTTP 400, rejects a URL whose website row is already
in status `scraping` with HTTP 409, and otherwise creates/updates the
website row, creates a scraping-job row and queues a Celery task.  Its
`except Exception` clause catches *every* raised exception — including the
endpoint's own `HTTPException`s — and re-raises HTTP 500. -/

structure Url where
  scheme : String
  host : String
  path : String
deriving Repr, DecidableEq

/-- `urlparse(url).netloc`. -/
def netloc (u : Url) : String := u.host

structure Website where
  wid : String
  url : Url
  domain : String
  status : String
deriving Repr, DecidableEq

/-- The persistent rows the endpoint touches: website rows, scraping-job
rows `(job_id, website_id)` and the ids of queued Celery tasks. -/
structure ScrapingDb where
  websites : List Website
  scraping_jobs : List (String × String)
  celery_tasks : List String
deriving Repr, DecidableEq

structure ScrapingResponse where
  job_id : String
  status : String
  message : String
  website_id : String
deriving Repr, DecidableEq

/-- The `try` body of `initiate_scraping`; errors are the HTTP status codes
it raises. -/
def initiate_scraping_body (db : ScrapingDb) (url : Url)
    (new_website_id new_job_id : String) : Except Nat (ScrapingDb × ScrapingResponse) :=
  if netloc url = "" then Except.error 400
  else
    match db.websites.find? (fun w => w.url == url) with
    | some w =>
      if w.status = "scraping" then Except.error 409
      else
        let toPending : Website → Website :=
          fun x => if x.wid = w.wid then { x with status := "pending" } else x
        let db1 : ScrapingDb := { db with websites := db.websites.map toPending }
        let db2 : ScrapingDb :=
          { db1 with scraping_jobs := db1.scraping_jobs ++ [(new_job_id, w.wid)],
                     celery_tasks := db1.celery_tasks ++ [new_job_id] }
        Except.ok (db2,
          { job_id := new_job_id, status := "started",
            message := "Scraping initiated successfully", website_id := w.wid })
    | none =>
      let neww : Website :=
        { wid := new_website_id, url := url, domain := netloc url, status := "pending" }
      let db1 : ScrapingDb := { db with websites := db.websites ++ [neww] }
      let db2 : ScrapingDb :=
        { db1 with scraping_jobs := db1.scraping_jobs ++ [(new_job_id, new_website_id)],
                   celery_tasks := db1.celery_tasks ++ [new_job_id] }
      Except.ok (db2,
        { job_id := new_job_id, status := "started",
          message := "Scraping initiated successfully", website_id := new_website_id })

/-- `initiate_scraping` as observed by the caller: the catch-all turns every
raised error, the endpoint's own 400/409 included, into HTTP 500. -/
def initiate_scraping (db : ScrapingDb) (url : Url)
    (new_website_id new_job_id : String) : Except Nat (ScrapingDb × ScrapingResponse) :=
  match initiate_scraping_body db url new_website_id new_job_id with
  | Except.error _ => Except.error 500
  | Except.ok r => Except.ok r

def urlA : Url := { scheme := "https", host := "a.test", path := "/" }

/-- A database where `urlA` is mid-scrape. -/
def dbBusy : ScrapingDb :=
  { websites := [{ wid := "w1", url := urlA, domain := "a.test", status := "scraping" }],
    scraping_jobs := [("j1", "w1")], celery_tasks := ["j1"] }

/-- A database where `urlA` has a queued (pending) job. -/
def dbPending : ScrapingDb :=
  { websites := [{ wid := "w1", url := urlA, domain := "a.test", status := "pending" }],
    scraping_jobs := [("j1", "w1")], celery_tasks := ["j1"] }

/-- Claim C5 (evaluation at the failing input): submitting `urlA` while its
website row is in status `scraping` yields an HTTP error (the raised 409,
re-wrapped to 500 by the catch-all) — the caller is not attached as an
observer of the existing job `j1` and receives no `attached=true` response.
Moreover, submitting `urlA` while its job is merely queued (`pending`)
creates a *second* scraping job for the same URL, so the same dedup key can
map to two simultaneously non-terminal jobs. -/
theorem c5_code_bug_eval :
    (match initiate_scraping dbBusy urlA "w2" "j2" with
     | Except.error c => some c
     | Except.ok _ => none) = some 500 ∧
    (match initiate_scraping dbPending urlA "w2" "j2" with
     | Except.ok r => r.1.scraping_jobs
     | Except.error _ => []) = [("j1", "w1"), ("j2", "w1")] := by
  decide

/-! ## Per-URL failure accumulation (`WebsiteScraper.scrape_website`,
part_003 lines 1014-1079)

The per-page loop catches every page failure, appends it to `self.errors`,
increments `pages_failed` and continues; after the loop the method returns
`success: True` unconditionally.  Only an exception escaping the whole
method (page discovery, crawler setup) produces `success: False`. -/

inductive FetchOutcome where
  | ok (content : String)
  | err (msg : String)
deriving Repr, DecidableEq

/-- The dict `scrape_website` returns. -/
structure ScrapeOutcome where
  success : Bool
  pages_scraped : Nat
  pages_failed : Nat
  results : List String
  errors : List (String × String)
  error : Option String
deriving Repr, DecidableEq

def scrapeInit : ScrapeOutcome :=
  { success := false, pages_scraped := 0, pages_failed := 0,
    results := [], errors := [], error := none }

/-- One iteration of the per-page loop: a scraped page is appended to
`results`, a failed page is appended to `errors`; either way the loop
continues with the remaining pages. -/
def scrapeStep (acc : ScrapeOutcome) (p : String × FetchOutcome) : ScrapeOutcome :=
  match p.2 with
  | FetchOutcome.ok c =>
    { acc with pages_scraped := acc.pages_scraped + 1, results := acc.results ++ [c] }
  | FetchOutcome.err m =>
    { acc with pages_failed := acc.pages_failed + 1, errors := acc.errors ++ [(p.1, m)] }

/-- `scrape_website`, over the discovered pages and their fetch outcomes;
`Except.error` is an exception escaping the whole method. -/
def scrape_website (discovery : Except String (List (String × FetchOutcome))) :
    ScrapeOutcome :=
  match discovery with
  | Except.error e => { scrapeInit with error := some e }
  | Except.ok pages => { pages.foldl scrapeStep scrapeInit with success := true }

/-- Number of pages whose fetch succeeded. -/
def okCount : List (String × FetchOutcome) → Nat
  | [] => 0
  | (_, FetchOutcome.ok _) :: rest => okCount rest + 1
  | (_, FetchOutcome.err _) :: rest => okCount rest

/-- The (url, message) pairs of the pages whose fetch failed, in order. -/
def failedPairs : List (String × FetchOutcome) → List (String × String)
  | [] => []
  | (_, FetchOutcome.ok _) :: rest => failedPairs rest
  | (u, FetchOutcome.err m) :: rest => (u, m) :: failedPairs rest

theorem okCount_add_failed (pages : List (String × FetchOutcome)) :
    okCount pages + (failedPairs pages).length = pages.length := by
  induction pages with
  | nil => rfl
  | cons p rest ih =>
    obtain ⟨u, o⟩ := p
    cases o <;> simp [okCount, failedPairs] <;> omega

theorem scrape_foldl (pages : List (String × FetchOutcome)) (acc : ScrapeOutcome) :
    (pages.foldl scrapeStep acc).success = acc.success ∧
    (pages.foldl scrapeStep acc).pages_scraped = acc.pages_scraped + okCount pages ∧
    (pages.foldl scrapeStep acc).pages_failed
      = acc.pages_failed + (failedPairs pages).length ∧
    (pages.foldl scrapeStep acc).errors = acc.errors ++ failedPairs pages := by
  induction pages generalizing acc with
  | nil => simp [okCount, failedPairs]
  | cons p rest ih =>
    obtain ⟨u, o⟩ := p
    cases o with
    | ok c =>
      obtain ⟨h1, h2, h3, h4⟩ := ih (scrapeStep acc (u, FetchOutcome.ok c))
      have e1 : (scrapeStep acc (u, FetchOutcome.ok c)).success = acc.success := rfl
      have e2 : (scrapeStep acc (u, FetchOutcome.ok c)).pages_scraped
          = acc.pages_scraped + 1 := rfl
      have e3 : (scrapeStep acc (u, FetchOutcome.ok c)).pages_failed
          = acc.pages_failed := rfl
      have e4 : (scrapeStep acc (u, FetchOutcome.ok c)).errors = acc.errors := rfl
      rw [e1] at h1
      rw [e2] at h2
      rw [e3] at h3
      rw [e4] at h4
      simp only [List.foldl_cons, okCount, failedPairs]
      exact ⟨h1, by omega, h3, h4⟩
    | err m =>
      obtain ⟨h1, h2, h3, h4⟩ := ih (scrapeStep acc (u, FetchOutcome.err m))
      have e1 : (scrapeStep acc (u, FetchOutcome.err m)).success = acc.success := rfl
      have e2 : (scrapeStep acc (u, FetchOutcome.err m)).pages_scraped
          = acc.pages_scraped := rfl
      have e3 : (scrapeStep acc (u, FetchOutcome.err m)).pages_failed
          = acc.pages_failed + 1 := rfl
      have e4 : (scrapeStep acc (u, FetchOutcome.err m)).errors
          = acc.errors ++ [(u, m)] := rfl
      rw [e1] at h1
      rw [e2] at h2
      rw [e3] at h3
      rw [e4] at h4
      simp only [List.foldl_cons, okCount, failedPairs]
      refine ⟨h1, h2, by simp only [List.length_cons]; omega, ?_⟩
      rw [h4, List.append_assoc, List.singleton_append]

/-- Claim C6 (counterexample): a job whose only URL fails — every URL in the
job failed — still returns `success = true` with the failure merely recorded
in `errors`, refuting "the job is marked failed when every URL failed". -/
theorem c6_counterexample :
    okCount [("u1", FetchOutcome.err "timeout")] = 0 ∧
    (scrape_website (Except.ok [("u1", FetchOutcome.err "timeout")])).success = true ∧
    (scrape_website (Except.ok [("u1", FetchOutcome.err "timeout")])).errors
      = [("u1", "timeout")] := by
  decide

/-- Claim C6 (amended): per-URL failures accumulate in the job's `errors`
list and never abort the job — every page is still processed
(`pages_scraped + pages_failed` covers all pages) — but the completed job
reports `success = true` unconditionally, however many URLs failed; a
failure outcome arises only when an exception escapes the whole method. -/
theorem c6_failures_never_abort (pages : List (String × FetchOutcome)) :
    (scrape_website (Except.ok pages)).success = true ∧
    (scrape_website (Except.ok pages)).errors = failedPairs pages ∧
    (scrape_website (Except.ok pages)).pages_scraped = okCount pages ∧
    (scrape_website (Except.ok pages)).pages_scraped
        + (scrape_website (Except.ok pages)).pages_failed = pages.length := by
  obtain ⟨h1, h2, h3, h4⟩ := scrape_foldl pages scrapeInit
  have hok := okCount_add_failed pages
  have s2 : scrapeInit.pages_scraped = 0 := rfl
  have s3 : scrapeInit.pages_failed = 0 := rfl
  have e2 : (scrape_website (Except.ok pages)).pages_scraped
      = (pages.foldl scrapeStep scrapeInit).pages_scraped := rfl
  have e3 : (scrape_website (Except.ok pages)).pages_failed
      = (pages.foldl scrapeStep scrapeInit).pages_failed := rfl
  have e4 : (scrape_website (Except.ok pages)).errors
      = (pages.foldl scrapeStep scrapeInit).errors := rfl
  refine ⟨rfl, ?_, ?_, ?_⟩
  · rw [e4, h4]
    rfl
  · rw [e2, h2, s2]
    omega
  · rw [e2, e3, h2, h3, s2, s3]
    omega

/-! ## Cancellation (`cancel_scraping`, part_003 lines 1382-1399)

The endpoint calls `celery_app.control.revoke(job_id, terminate=True)` and
then synchronously writes job status `"cancelled"`.  Per Celery's
revocation contract: revoking a task that has not started marks it revoked
so no worker will ever execute it; with `terminate=True`, a task that *is*
executing has its worker process terminated at once, killing whatever fetch
is in flight. -/

structure TaskState where
  status : String
  celery_started : Bool
  revoked : Bool
  worker_killed : Bool
  fetch_in_flight : Bool
deriving Repr, DecidableEq

/-- `cancel_scraping`: revoke with `terminate=True`, then write
`"cancelled"` synchronously. -/
def cancel_scraping (t : TaskState) : TaskState :=
  let t1 :=
    if t.celery_started then { t with worker_killed := true, fetch_in_flight := false }
    else { t with revoked := true }
  { t1 with status := "cancelled" }

/-- A Celery worker picking the task off the queue: only tasks that are
neither revoked nor already started begin executing; `"processing"` is the
status the status endpoint maps Celery's `STARTED` to. -/
def dispatch (t : TaskState) : TaskState :=
  if t.revoked || t.celery_started then t
  else { t with celery_started := true, status := "processing" }

theorem dispatch_fixed (t : TaskState) (h : t.revoked = true) : dispatch t = t := by
  simp [dispatch, h]

theorem cancel_revoked_of_not_started (t : TaskState) (h : t.celery_started = false) :
    cancel_scraping t = { t with revoked := true, status := "cancelled" } := by
  simp [cancel_scraping, h]

/-- A queued job: task created, not yet picked up by any worker. -/
def tQueued : TaskState :=
  { status := "pending", celery_started := false, revoked := false,
    worker_killed := false, fetch_in_flight := false }

/-- A running job with a single-URL fetch in flight. -/
def tRun : TaskState :=
  { status := "processing", celery_started := true, revoked := false,
    worker_killed := false, fetch_in_flight := true }

/-- Claim C8 (counterexample): cancelling the running job `tRun`, whose
single-URL fetch is in flight, kills the worker immediately
(`terminate=True`), the in-flight fetch does not complete, and the status
is written `"cancelled"` synchronously — not a cooperative flag observed at
the next URL boundary with the fetch allowed to finish. -/
theorem c8_counterexample :
    tRun.fetch_in_flight = true ∧
    (cancel_scraping tRun).worker_killed = true ∧
    (cancel_scraping tRun).fetch_in_flight = false ∧
    (cancel_scraping tRun).status = "cancelled" := by
  decide

/-- Claim C8 (amended): cancelling a pending/queued job revokes the task,
so it is never dispatched and stays `"cancelled"` forever — it is never
observed running; cancelling a running job forcibly terminates the worker
(killing the in-flight fetch) and writes `"cancelled"` synchronously,
rather than setting a cooperative flag observed at the next URL boundary. -/
theorem c8_cancel_semantics (t : TaskState) (n : Nat) :
    (t.celery_started = false →
      (dispatch^[n] (cancel_scraping t)).status = "cancelled" ∧
      (dispatch^[n] (cancel_scraping t)).celery_started = false) ∧
    (t.celery_started = true →
      (cancel_scraping t).worker_killed = true ∧
      (cancel_scraping t).fetch_in_flight = false ∧
      (cancel_scraping t).status = "cancelled") := by
  constructor
  · intro h
    have hc := cancel_revoked_of_not_started t h
    have hfix : dispatch^[n] (cancel_scraping t) = cancel_scraping t :=
      Function.iterate_fixed (by rw [hc]; exact dispatch_fixed _ rfl) n
    rw [hfix, hc]
    exact ⟨rfl, h⟩
  · intro h
    simp [cancel_scraping, h]

/-- Claim C8 (witness for the amended theorem): instantiated on the queued
job `tQueued` with three dispatch attempts, and on the running job `tRun`. -/
theorem c8_cancel_semantics_witness :
    (dispatch^[3] (cancel_scraping tQueued)).status = "cancelled" ∧
    (dispatch^[3] (cancel_scraping tQueued)).celery_started = false ∧
    (cancel_scraping tRun).worker_killed = true :=
  ⟨((c8_cancel_semantics tQueued 3).1 rfl).1, ((c8_cancel_semantics tQueued 3).1 rfl).2,
   ((c8_cancel_semantics tRun 3).2 rfl).1⟩

/-! ## Listener dispatch (`WebSocketService.notifyListeners`, websocket.ts
lines 240-251)

`notifyListeners` iterates over the listeners registered for an event and
invokes each callback inside `try { callback(data) } catch { log }`.  A
callback is modelled as a function from the event data to `Except`: a
`.error` outcome is a thrown exception.  The result records, per listener
in registration order, the caught outcome of its invocation. -/

structure Listener where
  lid : Nat
  run : Nat → Except String Nat

/-- `notifyListeners`: invoke every callback, catching whatever it throws
and moving on to the next listener; the function itself always returns. -/
def notifyListeners (ls : List Listener) (data : Nat) :
    List (Nat × Except String Nat) :=
  ls.foldl (fun acc cb => acc ++ [(cb.lid, cb.run data)]) []

theorem notify_foldl (ls : List Listener) (d : Nat)
    (acc : List (Nat × Except String Nat)) :
    ls.foldl (fun a cb => a ++ [(cb.lid, cb.run d)]) acc
      = acc ++ ls.map (fun cb => (cb.lid, cb.run d)) := by
  induction ls generalizing acc with
  | nil => simp
  | cons cb rest ih => simp [ih, List.append_assoc]

/-- Claim C9: every registered listener for the dispatched event is invoked
exactly once, in registration order, with the event data; a callback that
throws has its exception caught and recorded as that listener's outcome,
so later listeners are still invoked and `notifyListeners` itself never
raises — it always returns one recorded outcome per listener. -/
theorem c9_notify_all_listeners (ls : List Listener) (d : Nat) :
    (notifyListeners ls d).map (fun r => r.1) = ls.map (fun cb => cb.lid) ∧
    (notifyListeners ls d).map (fun r => r.2) = ls.map (fun cb => cb.run d) := by
  unfold notifyListeners
  rw [notify_foldl]
  simp [List.map_map, Function.comp_def]

end EconoSEO
